import Mathlib

/-!
Verification of the finite-volume face-interpolation routines of
`idaes/power_generation/unit_models/sofc_submodels.py`
(`_interpolate_channel` and `_interpolate_2D`).

The Pyomo index sets `ifaces` (1..F) are represented by their `first` and
`last` integer bounds; the ordered coordinate sets `nodes`/`faces` and the
accessor `phi_func` become total functions `ℤ → ℚ` (the `.at` accessor).
Scalar/symbolic expressions are modelled by `ℚ`.  `_interpolate_channel`
has no matching branch for the QUICK scheme at a non-inlet face, so the
Python function implicitly returns `None`; this is modelled by `Option ℚ`.
`_interpolate_2D` raises a `RuntimeError` for non-CDS schemes, modelled by
`Except String ℚ`.
-/

namespace Sofc

/-- Mirror of the Python enum `CV_Bound` (`EXTRAPOLATE = 1`). -/
inductive CV_Bound where
  | EXTRAPOLATE
deriving DecidableEq

/-- Mirror of the Python enum `CV_Interpolation` (`UDS = 1`, `CDS = 2`,
`QUICK = 3`). -/
inductive CV_Interpolation where
  | UDS
  | CDS
  | QUICK
deriving DecidableEq

/-- Python name of each `CV_Interpolation` member, as it would appear in an
error message naming the scheme. -/
def schemeName : CV_Interpolation → String
  | CV_Interpolation.UDS => "UDS"
  | CV_Interpolation.CDS => "CDS"
  | CV_Interpolation.QUICK => "QUICK"

/-- A boundary argument of `_interpolate_2D`: the Python code dispatches on
`isinstance(phi_bound, CV_Bound)`, so an argument is either one of the
`CV_Bound` sentinels or a value/expression. -/
inductive BoundArg where
  | sentinel (b : CV_Bound)
  | value (q : ℚ)
deriving DecidableEq

/-- Embedding of `_interpolate_channel` (sofc_submodels.py lines 64-108).
`firstFace`/`lastFace` stand for `ifaces.first()`/`ifaces.last()`;
`nodes`/`faces` for the coordinate accessors `nodes.at`/`faces.at`.
Falling off the end of the Python function (QUICK at a non-inlet face)
returns `none`. -/
def interpolateChannel (iz firstFace lastFace : ℤ) (nodes faces : ℤ → ℚ)
    (phi_func : ℤ → ℚ) (phi_inlet : ℚ) (method : CV_Interpolation)
    (oposite_flow : Bool) : Option ℚ :=
  let izu : ℤ := if oposite_flow then iz else iz - 1
  let izuu : ℤ := if oposite_flow then iz + 1 else iz - 2
  let izd : ℤ := if oposite_flow then iz - 1 else iz
  if iz = firstFace ∧ oposite_flow = false then some phi_inlet
  else if iz = lastFace ∧ oposite_flow = true then some phi_inlet
  else if method = CV_Interpolation.UDS then some (phi_func izu)
  else if method = CV_Interpolation.CDS then
    let izd2 : ℤ :=
      if (oposite_flow = true ∧ iz = firstFace) ∨
          (oposite_flow = false ∧ iz = lastFace) then izuu else izd
    let zu := nodes izu
    let zd := nodes izd2
    let zf := faces iz
    let lambf := (zd - zf) / (zd - zu)
    some ((1 - lambf) * phi_func izu + lambf * phi_func izd2)
  else none

/-- The literal message of the `RuntimeError` raised by `_interpolate_2D`
for a non-CDS scheme (sofc_submodels.py lines 144-147). -/
def errMsg2D : String :=
  "SOFC/SOEC sections modeled in 2D do not have bulk " ++
    "flow, so currently only CDS interpolation is supported"

/-- Tail of `_interpolate_2D` (lines 158-168): once the reference window
`(icu, icd)` is fixed, compute either the CDS face value or the
finite-difference slope between the two reference nodes. -/
def interp2Dtail (ic icu icd : ℤ) (nodes faces : ℤ → ℚ)
    (phi_func : ℤ → ℚ) (derivative : Bool) : ℚ :=
  let cu := nodes icu
  let cd := nodes icd
  if derivative = false then
    let cf := faces ic
    let lambf := (cd - cf) / (cd - cu)
    (1 - lambf) * phi_func icu + lambf * phi_func icd
  else
    (phi_func icd - phi_func icu) / (cd - cu)

/-- Embedding of `_interpolate_2D` (sofc_submodels.py lines 111-168).
The Python function initialises `icu = ic - 1`, `icd = ic`, then possibly
early-returns a literal bound or reassigns `icu := ic + 1` (first face,
sentinel) / `icd := ic - 2` (last face, sentinel); the sequential control
flow is unrolled into nested conditionals here. -/
def interpolate2D (ic firstFace lastFace : ℤ) (nodes faces : ℤ → ℚ)
    (phi_func : ℤ → ℚ) (phi_bound_0 phi_bound_1 : BoundArg)
    (derivative : Bool) (method : CV_Interpolation) : Except String ℚ :=
  if method ≠ CV_Interpolation.CDS then
    Except.error errMsg2D
  else if ic = firstFace then
    match phi_bound_0 with
    | BoundArg.value q => Except.ok q
    | BoundArg.sentinel _ =>
      if ic = lastFace then
        match phi_bound_1 with
        | BoundArg.value q => Except.ok q
        | BoundArg.sentinel _ =>
          Except.ok (interp2Dtail ic (ic + 1) (ic - 2) nodes faces phi_func derivative)
      else
        Except.ok (interp2Dtail ic (ic + 1) ic nodes faces phi_func derivative)
  else if ic = lastFace then
    match phi_bound_1 with
    | BoundArg.value q => Except.ok q
    | BoundArg.sentinel _ =>
      Except.ok (interp2Dtail ic (ic - 1) (ic - 2) nodes faces phi_func derivative)
  else
    Except.ok (interp2Dtail ic (ic - 1) ic nodes faces phi_func derivative)

/-- True mathematical linear interpolation through the points
`(zu, fu)` and `(zd, fd)`, evaluated at `zf`; stated from the spec's words
("linear-interpolate between phi(u) and phi(d)", nearest node weighted
most) for comparison with what the source computes. -/
def specLinearInterp (zu zd fu fd zf : ℚ) : ℚ :=
  fu + (fd - fu) * (zf - zu) / (zd - zu)

/-! Concrete axes used for scenario evaluations and witnesses. -/

/-- The spec's scenario axis: faces `[0, 0.25, 0.5, 0.75, 1]` (1-based). -/
def zfacesEx : ℤ → ℚ := fun i =>
  if i = 1 then 0 else if i = 2 then 1/4 else if i = 3 then 1/2
  else if i = 4 then 3/4 else if i = 5 then 1 else 0

/-- Nodes of the scenario axis: midpoints `[0.125, 0.375, 0.625, 0.875]`. -/
def znodesEx : ℤ → ℚ := fun i =>
  if i = 1 then 1/8 else if i = 2 then 3/8 else if i = 3 then 5/8
  else if i = 4 then 7/8 else 0

/-- The spec's scenario node values `[10, 20, 30, 40]`. -/
def phiEx : ℤ → ℚ := fun i =>
  if i = 1 then 10 else if i = 2 then 20 else if i = 3 then 30
  else if i = 4 then 40 else 0

/-- Node values `[100, 120]` for the spec's 2-D derivative scenario. -/
def phiD : ℤ → ℚ := fun i =>
  if i = 1 then 100 else if i = 2 then 120 else 0

/-- A non-uniform axis: faces `[0, 0.2, 0.4, 1]`, giving nodes
`[0.1, 0.3, 0.7]`; face 3 (at 0.4) is NOT midway between its neighbor
nodes 0.3 and 0.7. -/
def zfacesB : ℤ → ℚ := fun i =>
  if i = 1 then 0 else if i = 2 then 1/5 else if i = 3 then 2/5
  else if i = 4 then 1 else 0

/-- Nodes of the non-uniform axis: `[0.1, 0.3, 0.7]`. -/
def znodesB : ℤ → ℚ := fun i =>
  if i = 1 then 1/10 else if i = 2 then 3/10 else if i = 3 then 7/10 else 0

/-- Node values `[0, 0, 1]` on the non-uniform axis. -/
def phiB : ℤ → ℚ := fun i => if i = 3 then 1 else 0

/-- Whether `pat` is an initial segment of a character list. -/
def startsWithSeq : List Char → List Char → Bool
  | [], _ => true
  | _ :: _, [] => false
  | a :: as, b :: bs => a = b && startsWithSeq as bs

/-- Whether `pat` occurs as a contiguous subsequence of a character list
(substring containment, used to check whether an error message mentions a
scheme name). -/
def hasSubSeq (pat : List Char) : List Char → Bool
  | [] => startsWithSeq pat []
  | b :: bs => startsWithSeq pat (b :: bs) || hasSubSeq pat bs

lemma CDS_ne_UDS : CV_Interpolation.CDS ≠ CV_Interpolation.UDS := by decide

lemma UDS_ne_CDS : CV_Interpolation.UDS ≠ CV_Interpolation.CDS := by decide

lemma QUICK_ne_UDS : CV_Interpolation.QUICK ≠ CV_Interpolation.UDS := by decide

lemma QUICK_ne_CDS : CV_Interpolation.QUICK ≠ CV_Interpolation.CDS := by decide

/-- A convex combination with weight `t ∈ [0,1]` lies between the two
combined values. -/
lemma convex_comb_mem (a b t : ℚ) (h0 : 0 ≤ t) (h1 : t ≤ 1) :
    min a b ≤ (1 - t) * a + t * b ∧ (1 - t) * a + t * b ≤ max a b := by
  rcases le_total a b with h | h
  · rw [min_eq_left h, max_eq_right h]
    constructor <;>
      nlinarith [mul_le_mul_of_nonneg_left h h0,
        mul_le_mul_of_nonneg_left h (by linarith : (0:ℚ) ≤ 1 - t)]
  · rw [min_eq_right h, max_eq_left h]
    constructor <;>
      nlinarith [mul_le_mul_of_nonneg_left h h0,
        mul_le_mul_of_nonneg_left h (by linarith : (0:ℚ) ≤ 1 - t)]

/-- Claim C2: for every scheme, accessor and node values, the 1-D routine
returns exactly `phi_inlet` at the inlet face (first face for positive
flow, last face for negative flow), with no interpolation; in particular
with `phi_inlet = 5` and positive flow the first face returns `5`. -/
theorem C2_inlet_face (firstFace lastFace : ℤ) (nodes faces phi_func : ℤ → ℚ)
    (phi_inlet : ℚ) (method : CV_Interpolation) :
    interpolateChannel firstFace firstFace lastFace nodes faces phi_func
        phi_inlet method false = some phi_inlet
  ∧ interpolateChannel lastFace firstFace lastFace nodes faces phi_func
        phi_inlet method true = some phi_inlet
  ∧ interpolateChannel 1 1 5 znodesEx zfacesEx phiEx 5
        CV_Interpolation.UDS false = some 5 := by
  refine ⟨?_, ?_, ?_⟩ <;> simp [interpolateChannel]

/-- Claim C7: with the UDS (upwind) scheme, the 1-D routine at every
non-inlet face returns exactly the upstream node's value: `phi(iz - 1)`
for positive flow and `phi(iz)` for negative flow, with no blending. -/
theorem C7_upwind (iz firstFace lastFace : ℤ) (nodes faces phi_func : ℤ → ℚ)
    (phi_inlet : ℚ) :
    (iz ≠ firstFace →
      interpolateChannel iz firstFace lastFace nodes faces phi_func phi_inlet
        CV_Interpolation.UDS false = some (phi_func (iz - 1)))
  ∧ (iz ≠ lastFace →
      interpolateChannel iz firstFace lastFace nodes faces phi_func phi_inlet
        CV_Interpolation.UDS true = some (phi_func iz)) := by
  constructor <;> intro h <;> simp [interpolateChannel, h]

/-- Witness for C7: at face 2 of the scenario axis with positive flow and
node values `[10, 20, 30, 40]`, UDS returns the upstream node value `10`. -/
theorem C7_witness :
    (2 : ℤ) ≠ 1 ∧ interpolateChannel 2 1 5 znodesEx zfacesEx phiEx 5
      CV_Interpolation.UDS false = some 10 := by
  refine ⟨by decide, ?_⟩
  have h := (C7_upwind 2 1 5 znodesEx zfacesEx phiEx 5).1 (by decide)
  rw [h]
  norm_num [phiEx]

/-- Claim C4 (code bug): with the QUICK scheme at a non-inlet face, the 1-D
routine raises no error at all — the Python conditional chain has no QUICK
branch, so the function silently returns `None` (modelled as `none`),
both for positive flow (face 2) and negative flow (face 3). -/
theorem C4_quick_returns_none :
    interpolateChannel 2 1 5 znodesEx zfacesEx phiEx 5
      CV_Interpolation.QUICK false = none
  ∧ interpolateChannel 3 1 5 znodesEx zfacesEx phiEx 5
      CV_Interpolation.QUICK true = none := by
  constructor <;> simp [interpolateChannel, QUICK_ne_UDS, QUICK_ne_CDS]

/-- Claim C1 (code bug): at the non-uniform axis with faces
`[0, 0.2, 0.4, 1]` (nodes `[0.1, 0.3, 0.7]`), node values `phi = [0, 0, 1]`
and the CDS scheme, both routines give face 3 (at `0.4`) the value `3/4`,
whereas the linear interpolation of the neighboring node values is `1/4`:
the code weights each node by its own distance from the face, so the node
nearer the face (node 2, distance `0.1 < 0.3`) receives the smaller weight.
At the symmetric scenario face (coordinate `0.5`, equidistant nodes) the
swap is invisible and the value is `25` as the spec states. -/
theorem C1_weights_swapped :
    interpolateChannel 3 1 4 znodesB zfacesB phiB 0
      CV_Interpolation.CDS false = some (3/4)
  ∧ interpolate2D 3 1 4 znodesB zfacesB phiB (BoundArg.value 0)
      (BoundArg.value 0) false CV_Interpolation.CDS = Except.ok (3/4)
  ∧ specLinearInterp (3/10) (7/10) 0 1 (2/5) = 1/4
  ∧ zfacesB 3 - znodesB 2 < znodesB 3 - zfacesB 3
  ∧ interpolateChannel 3 1 5 znodesEx zfacesEx phiEx 5
      CV_Interpolation.CDS false = some 25 := by
  refine ⟨?_, ?_, ?_, ?_, ?_⟩ <;>
    norm_num [interpolateChannel, interpolate2D, interp2Dtail,
      specLinearInterp, znodesB, zfacesB, phiB, znodesEx, zfacesEx, phiEx,
      CDS_ne_UDS]

/-- Claim C8: with the CDS scheme at the outlet face (last face for
positive flow, first face for negative flow), the 1-D routine substitutes
the node two upstream of the face (`iz - 2`, resp. `iz + 1`) as the
synthetic downstream point and applies the same interpolation formula,
whose denominator is nonzero whenever the two node coordinates differ. -/
theorem C8_outlet_substitution (iz firstFace lastFace : ℤ)
    (nodes faces phi_func : ℤ → ℚ) (phi_inlet : ℚ) :
    (iz = lastFace → iz ≠ firstFace →
      interpolateChannel iz firstFace lastFace nodes faces phi_func phi_inlet
          CV_Interpolation.CDS false
        = some ((1 - (nodes (iz - 2) - faces iz) /
              (nodes (iz - 2) - nodes (iz - 1))) * phi_func (iz - 1)
            + (nodes (iz - 2) - faces iz) /
              (nodes (iz - 2) - nodes (iz - 1)) * phi_func (iz - 2)))
  ∧ (iz = firstFace → iz ≠ lastFace →
      interpolateChannel iz firstFace lastFace nodes faces phi_func phi_inlet
          CV_Interpolation.CDS true
        = some ((1 - (nodes (iz + 1) - faces iz) /
              (nodes (iz + 1) - nodes iz)) * phi_func iz
            + (nodes (iz + 1) - faces iz) /
              (nodes (iz + 1) - nodes iz) * phi_func (iz + 1)))
  ∧ (nodes (iz - 2) < nodes (iz - 1) →
      nodes (iz - 2) - nodes (iz - 1) ≠ 0) := by
  refine ⟨?_, ?_, ?_⟩
  · intro h1 h2
    subst h1
    simp [interpolateChannel, h2, CDS_ne_UDS]
  · intro h1 h2
    subst h1
    simp [interpolateChannel, h2, CDS_ne_UDS]
  · intro h
    exact sub_ne_zero.mpr (ne_of_lt h)

/-- Witness for C8: on the scenario axis with positive flow, the outlet
face 5 gets the CDS formula with node 3 substituted as downstream point,
evaluating to `25`. -/
theorem C8_witness :
    (5 : ℤ) ≠ 1 ∧ interpolateChannel 5 1 5 znodesEx zfacesEx phiEx 5
      CV_Interpolation.CDS false = some 25 := by
  refine ⟨by decide, ?_⟩
  have h := (C8_outlet_substitution 5 1 5 znodesEx zfacesEx phiEx 5).1
    rfl (by decide)
  rw [h]
  norm_num [znodesEx, zfacesEx, phiEx]

/-- Claim C3: in derivative mode, `_interpolate_2D` returns the
finite-difference slope between the two reference nodes — `(iz-1, iz)` at
an interior face, `(iz+1, iz)` at the first face with the extrapolate
sentinel, `(iz-2, iz-1)` at the last face with the sentinel — with no
uniform-spacing assumption; at the first scenario face with nodes at
`0.125, 0.375` and values `100, 120` the slope is `80`. -/
theorem C3_derivative_slope (ic firstFace lastFace : ℤ)
    (nodes faces phi_func : ℤ → ℚ) (b0 b1 : BoundArg) :
    (ic ≠ firstFace → ic ≠ lastFace →
      interpolate2D ic firstFace lastFace nodes faces phi_func b0 b1 true
          CV_Interpolation.CDS
        = Except.ok ((phi_func ic - phi_func (ic - 1)) /
            (nodes ic - nodes (ic - 1))))
  ∧ (ic = firstFace → ic ≠ lastFace →
      b0 = BoundArg.sentinel CV_Bound.EXTRAPOLATE →
      interpolate2D ic firstFace lastFace nodes faces phi_func b0 b1 true
          CV_Interpolation.CDS
        = Except.ok ((phi_func ic - phi_func (ic + 1)) /
            (nodes ic - nodes (ic + 1))))
  ∧ (ic = lastFace → ic ≠ firstFace →
      b1 = BoundArg.sentinel CV_Bound.EXTRAPOLATE →
      interpolate2D ic firstFace lastFace nodes faces phi_func b0 b1 true
          CV_Interpolation.CDS
        = Except.ok ((phi_func (ic - 2) - phi_func (ic - 1)) /
            (nodes (ic - 2) - nodes (ic - 1))))
  ∧ interpolate2D 1 1 5 znodesEx zfacesEx phiD
      (BoundArg.sentinel CV_Bound.EXTRAPOLATE) (BoundArg.value 0) true
      CV_Interpolation.CDS = Except.ok 80 := by
  refine ⟨?_, ?_, ?_, ?_⟩
  · intro h1 h2
    simp [interpolate2D, interp2Dtail, h1, h2]
  · intro h1 h2 h3
    subst h1; subst h3
    simp [interpolate2D, interp2Dtail, h2]
  · intro h1 h2 h3
    subst h1; subst h3
    simp [interpolate2D, interp2Dtail, h2]
  · norm_num [interpolate2D, interp2Dtail, znodesEx, zfacesEx, phiD]

/-- Witness for C3: at interior face 3 of the scenario axis with values
`[10, 20, 30, 40]`, the derivative mode returns
`(30 - 20) / (0.625 - 0.375) = 40`. -/
theorem C3_witness :
    (3 : ℤ) ≠ 1 ∧ (3 : ℤ) ≠ 5 ∧
    interpolate2D 3 1 5 znodesEx zfacesEx phiEx (BoundArg.value 0)
      (BoundArg.value 0) true CV_Interpolation.CDS = Except.ok 40 := by
  refine ⟨by decide, by decide, ?_⟩
  have h := (C3_derivative_slope 3 1 5 znodesEx zfacesEx phiEx
    (BoundArg.value 0) (BoundArg.value 0)).1 (by decide) (by decide)
  rw [h]
  norm_num [znodesEx, phiEx]

/-- Claim C5 (counterexample): the non-CDS error message is the same fixed
string for UDS and for QUICK, and it contains neither scheme's name — so
the error does not identify the unsupported scheme by name. -/
theorem C5_counterexample :
    interpolate2D 2 1 5 znodesEx zfacesEx phiEx (BoundArg.value 0)
      (BoundArg.value 0) false CV_Interpolation.UDS = Except.error errMsg2D
  ∧ interpolate2D 2 1 5 znodesEx zfacesEx phiEx (BoundArg.value 0)
      (BoundArg.value 0) false CV_Interpolation.QUICK = Except.error errMsg2D
  ∧ hasSubSeq (schemeName CV_Interpolation.UDS).toList errMsg2D.toList = false
  ∧ hasSubSeq (schemeName CV_Interpolation.QUICK).toList errMsg2D.toList
      = false := by
  refine ⟨?_, ?_, by decide, by decide⟩ <;> simp [interpolate2D, UDS_ne_CDS, QUICK_ne_CDS]

/-- Claim C5 (amended): for every face index, accessor and boundary
specifiers, any scheme other than CDS makes `_interpolate_2D` raise a
RuntimeError at call time — the result is the error for all argument
values, so nothing is computed and nothing silently defaults — but the
error message is a fixed string naming only the supported scheme, not the
unsupported one. -/
theorem C5_scheme_error (ic firstFace lastFace : ℤ)
    (nodes faces phi_func : ℤ → ℚ) (b0 b1 : BoundArg) (derivative : Bool)
    (method : CV_Interpolation) (h : method ≠ CV_Interpolation.CDS) :
    interpolate2D ic firstFace lastFace nodes faces phi_func b0 b1
        derivative method = Except.error errMsg2D
  ∧ hasSubSeq (schemeName method).toList errMsg2D.toList = false := by
  constructor
  · simp [interpolate2D, h]
  · cases method with
    | UDS => decide
    | CDS => exact absurd rfl h
    | QUICK => decide

/-- Witness for C5: UDS is not CDS, and at concrete arguments the call
returns the fixed error whose text does not contain the string `UDS`. -/
theorem C5_witness :
    CV_Interpolation.UDS ≠ CV_Interpolation.CDS
  ∧ (interpolate2D 3 1 5 znodesEx zfacesEx phiEx (BoundArg.value 0)
        (BoundArg.value 0) true CV_Interpolation.UDS = Except.error errMsg2D
     ∧ hasSubSeq (schemeName CV_Interpolation.UDS).toList errMsg2D.toList
        = false) :=
  ⟨by decide, C5_scheme_error 3 1 5 znodesEx zfacesEx phiEx
    (BoundArg.value 0) (BoundArg.value 0) true CV_Interpolation.UDS
    (by decide)⟩

/-- Claim C6: in value mode, at the first face a literal `bound_lo` is
returned directly with no interpolation, and with the extrapolate sentinel
the reference window becomes the interior nodes `ic` and `ic + 1`;
symmetrically at the last face a literal `bound_hi` is returned directly
and the sentinel window becomes nodes `ic - 2` and `ic - 1`. -/
theorem C6_boundary_dispatch (ic firstFace lastFace : ℤ)
    (nodes faces phi_func : ℤ → ℚ) (b0 b1 : BoundArg) (q : ℚ) :
    (ic = firstFace → b0 = BoundArg.value q →
      interpolate2D ic firstFace lastFace nodes faces phi_func b0 b1 false
        CV_Interpolation.CDS = Except.ok q)
  ∧ (ic = firstFace → ic ≠ lastFace →
      b0 = BoundArg.sentinel CV_Bound.EXTRAPOLATE →
      interpolate2D ic firstFace lastFace nodes faces phi_func b0 b1 false
          CV_Interpolation.CDS
        = Except.ok ((1 - (nodes ic - faces ic) /
              (nodes ic - nodes (ic + 1))) * phi_func (ic + 1)
            + (nodes ic - faces ic) / (nodes ic - nodes (ic + 1)) *
              phi_func ic))
  ∧ (ic = lastFace → ic ≠ firstFace → b1 = BoundArg.value q →
      interpolate2D ic firstFace lastFace nodes faces phi_func b0 b1 false
        CV_Interpolation.CDS = Except.ok q)
  ∧ (ic = lastFace → ic ≠ firstFace →
      b1 = BoundArg.sentinel CV_Bound.EXTRAPOLATE →
      interpolate2D ic firstFace lastFace nodes faces phi_func b0 b1 false
          CV_Interpolation.CDS
        = Except.ok ((1 - (nodes (ic - 2) - faces ic) /
              (nodes (ic - 2) - nodes (ic - 1))) * phi_func (ic - 1)
            + (nodes (ic - 2) - faces ic) /
              (nodes (ic - 2) - nodes (ic - 1)) * phi_func (ic - 2))) := by
  refine ⟨?_, ?_, ?_, ?_⟩
  · intro h1 h2
    subst h1; subst h2
    simp [interpolate2D]
  · intro h1 h2 h3
    subst h1; subst h3
    simp [interpolate2D, interp2Dtail, h2]
  · intro h1 h2 h3
    subst h1; subst h3
    simp [interpolate2D, interp2Dtail, h2]
  · intro h1 h2 h3
    subst h1; subst h3
    simp [interpolate2D, interp2Dtail, h2]

/-- Witness for C6: on the scenario axis in value mode, the first face
with the extrapolate sentinel extrapolates from interior nodes 1 and 2,
and the last face with a literal bound `7` returns `7`. -/
theorem C6_witness :
    (interpolate2D 1 1 5 znodesEx zfacesEx phiEx
        (BoundArg.sentinel CV_Bound.EXTRAPOLATE) (BoundArg.value 0) false
        CV_Interpolation.CDS = Except.ok 25)
  ∧ (interpolate2D 5 1 5 znodesEx zfacesEx phiEx (BoundArg.value 0)
        (BoundArg.value 7) false CV_Interpolation.CDS = Except.ok 7) := by
  constructor
  · have h := (C6_boundary_dispatch 1 1 5 znodesEx zfacesEx phiEx
      (BoundArg.sentinel CV_Bound.EXTRAPOLATE) (BoundArg.value 0) 0).2.1
      rfl (by decide) rfl
    rw [h]
    norm_num [znodesEx, zfacesEx, phiEx]
  · exact (C6_boundary_dispatch 5 1 5 znodesEx zfacesEx phiEx
      (BoundArg.value 0) (BoundArg.value 7) 7).2.2.1 rfl (by decide) rfl

/-- Claim C9: with CDS in value mode at an interior face whose coordinate
lies strictly between the two neighboring node coordinates, the two
weights sum to one, the weight `lambda` lies in `[0, 1]`, both routines
return the weighted combination, and the result is a convex combination
lying between the two node values. -/
theorem C9_convex_combination (iz firstFace lastFace : ℤ)
    (nodes faces phi_func : ℤ → ℚ) (phi_inlet : ℚ) (b0 b1 : BoundArg)
    (hf : iz ≠ firstFace) (hl : iz ≠ lastFace)
    (hu : nodes (iz - 1) < faces iz) (hd : faces iz < nodes iz) :
    (1 - (nodes iz - faces iz) / (nodes iz - nodes (iz - 1)))
      + (nodes iz - faces iz) / (nodes iz - nodes (iz - 1)) = 1
  ∧ 0 ≤ (nodes iz - faces iz) / (nodes iz - nodes (iz - 1))
  ∧ (nodes iz - faces iz) / (nodes iz - nodes (iz - 1)) ≤ 1
  ∧ interpolateChannel iz firstFace lastFace nodes faces phi_func phi_inlet
        CV_Interpolation.CDS false
      = some ((1 - (nodes iz - faces iz) / (nodes iz - nodes (iz - 1)))
            * phi_func (iz - 1)
          + (nodes iz - faces iz) / (nodes iz - nodes (iz - 1)) *
            phi_func iz)
  ∧ interpolate2D iz firstFace lastFace nodes faces phi_func b0 b1 false
        CV_Interpolation.CDS
      = Except.ok ((1 - (nodes iz - faces iz) /
            (nodes iz - nodes (iz - 1))) * phi_func (iz - 1)
          + (nodes iz - faces iz) / (nodes iz - nodes (iz - 1)) *
            phi_func iz)
  ∧ min (phi_func (iz - 1)) (phi_func iz)
      ≤ (1 - (nodes iz - faces iz) / (nodes iz - nodes (iz - 1)))
            * phi_func (iz - 1)
          + (nodes iz - faces iz) / (nodes iz - nodes (iz - 1)) *
            phi_func iz
  ∧ (1 - (nodes iz - faces iz) / (nodes iz - nodes (iz - 1)))
            * phi_func (iz - 1)
          + (nodes iz - faces iz) / (nodes iz - nodes (iz - 1)) *
            phi_func iz
      ≤ max (phi_func (iz - 1)) (phi_func iz) := by
  have hden : (0 : ℚ) < nodes iz - nodes (iz - 1) := by linarith
  have h0 : 0 ≤ (nodes iz - faces iz) / (nodes iz - nodes (iz - 1)) :=
    div_nonneg (by linarith) (le_of_lt hden)
  have h1 : (nodes iz - faces iz) / (nodes iz - nodes (iz - 1)) ≤ 1 :=
    (div_le_one hden).mpr (by linarith)
  have hmem := convex_comb_mem (phi_func (iz - 1)) (phi_func iz)
    ((nodes iz - faces iz) / (nodes iz - nodes (iz - 1))) h0 h1
  refine ⟨by ring, h0, h1, ?_, ?_, hmem.1, hmem.2⟩
  · simp [interpolateChannel, hf, hl, CDS_ne_UDS]
  · simp [interpolate2D, interp2Dtail, hf, hl]

/-- Witness for C9: at interior face 3 of the scenario axis
(`lambda = 1/2`), both routines return `25`, which lies between the node
values `20` and `30`. -/
theorem C9_witness :
    (3 : ℤ) ≠ 1 ∧ (3 : ℤ) ≠ 5
  ∧ znodesEx 2 < zfacesEx 3 ∧ zfacesEx 3 < znodesEx 3
  ∧ interpolateChannel 3 1 5 znodesEx zfacesEx phiEx 5
      CV_Interpolation.CDS false
    = some ((1 - (znodesEx 3 - zfacesEx 3) / (znodesEx 3 - znodesEx 2))
          * phiEx 2
        + (znodesEx 3 - zfacesEx 3) / (znodesEx 3 - znodesEx 2) * phiEx 3)
  ∧ min (phiEx 2) (phiEx 3)
    ≤ (1 - (znodesEx 3 - zfacesEx 3) / (znodesEx 3 - znodesEx 2)) * phiEx 2
      + (znodesEx 3 - zfacesEx 3) / (znodesEx 3 - znodesEx 2) * phiEx 3 := by
  have h := C9_convex_combination 3 1 5 znodesEx zfacesEx phiEx 5
    (BoundArg.value 0) (BoundArg.value 0) (by decide) (by decide)
    (by norm_num [znodesEx, zfacesEx]) (by norm_num [znodesEx, zfacesEx])
  exact ⟨by decide, by decide, by norm_num [znodesEx, zfacesEx],
    by norm_num [znodesEx, zfacesEx], h.2.2.2.1, h.2.2.2.2.2.1⟩

/-- Claim C10: a literal boundary specifier at the first (or last) face is
returned even in derivative mode — the literal-boundary early return takes
precedence over the derivative flag, so no slope estimate is produced at a
literal-valued boundary face. -/
theorem C10_literal_beats_derivative (ic firstFace lastFace : ℤ)
    (nodes faces phi_func : ℤ → ℚ) (b0 b1 : BoundArg) (q : ℚ) :
    (ic = firstFace → b0 = BoundArg.value q →
      interpolate2D ic firstFace lastFace nodes faces phi_func b0 b1 true
        CV_Interpolation.CDS = Except.ok q)
  ∧ (ic = lastFace → ic ≠ firstFace → b1 = BoundArg.value q →
      interpolate2D ic firstFace lastFace nodes faces phi_func b0 b1 true
        CV_Interpolation.CDS = Except.ok q) := by
  constructor
  · intro h1 h2
    subst h1; subst h2
    simp [interpolate2D]
  · intro h1 h2 h3
    subst h1; subst h3
    simp [interpolate2D, h2]

/-- Witness for C10: with derivative mode requested and a literal lower
bound `9`, the first face returns `9` rather than any slope. -/
theorem C10_witness :
    interpolate2D 1 1 5 znodesEx zfacesEx phiD (BoundArg.value 9)
      (BoundArg.value 0) true CV_Interpolation.CDS = Except.ok 9 :=
  (C10_literal_beats_derivative 1 1 5 znodesEx zfacesEx phiD
    (BoundArg.value 9) (BoundArg.value 0) 9).1 rfl rfl

end Sofc
